import Mathlib

/-!
Verification development for the streaming build pipeline of the
Polymer/polytool repository.

Part 1 embeds `WritableAsyncIterable` and `AsyncTransformStream` from
`src/build/streams.ts` as an explicit state machine.  JavaScript runs
single-threaded with cooperative scheduling, so every externally visible
event (a call to `write`, `close`, `_transform`, `_flush`) is modelled as
a function from states to states that also runs all microtasks enabled by
that event to quiescence, in the order the JS promise-job queue would run
them.

Part 2 embeds `build()` from `src/build/build.ts` and
`BuildCommand.run` from `src/commands/build.ts`.  Promises that settle
over time are modelled as outcome-plus-settle-time pairs, and
`Promise.all` as the combinator `promiseAll2` over those.
-/

/-- A message travelling through `WritableAsyncIterable`'s backlog: the
`IteratorResult` written by `_write` is either `{value, done: false}`
(an item) or the terminal `{done: true}` marker written by `close()`. -/
inductive Msg (V : Type) where
  | item : V → Msg V
  | done : Msg V
deriving DecidableEq, Repr

/-- State of the consumer coroutine, i.e. of the `for await` loop that
`AsyncTransformStream._initializeOnce` starts over `this._inputs`.
`notStarted`: `_initializeOnce` has never run (the transform iteration is
lazily initialized on the first `_transform` call only).
`parked`: the loop is suspended on `this.blockedOn.promise`, waiting for
the next `_write`.
`finished`: the loop consumed the `done` marker and returned. -/
inductive LoopSt where
  | notStarted : LoopSt
  | parked : LoopSt
  | finished : LoopSt
deriving DecidableEq, Repr

/-- State of `AsyncTransformStream._flush`.
`awaitingClose` covers the whole pending region of `_flush`'s body: it has
called `this._inputs.close()` and has not yet invoked its callback. -/
inductive FlushSt where
  | notCalled : FlushSt
  | awaitingClose : FlushSt
  | completed : FlushSt
deriving DecidableEq, Repr

/-- Combined state of one `AsyncTransformStream` instance and its inner
`WritableAsyncIterable`.  Fields in source order:
`closed` is `WritableAsyncIterable._closed`;
`backlog` is the backlog array, each entry carrying the numeric id of the
`Deferred` stored with it;
`nextId` is a fresh-id source for promise identities;
`writeResolved` records, in order, the ids of the promises returned by
the public `write`/`close` bodies that have resolved;
`defResolved` records, in order, the ids of backlog `Deferred`s resolved
by the consumer loop shifting their entry;
`received` records, in order, every `IteratorResult` the consumer loop
obtained (by direct hand-off or by shifting the backlog);
`loopSt` is the consumer-loop state; `pushed` records every value the
transform loop passed to `this.push`, in order;
`writingFinished` is whether `_writingFinished` has resolved;
`flushSt` / `flushAwaitId` describe `_flush` (`flushAwaitId` is the id of
the close-marker's `Deferred` when `close()` went through the backlog,
`none` when `close()` resolved immediately). -/
structure AState (V O : Type) where
  closed : Bool
  backlog : List (Msg V × Nat)
  nextId : Nat
  writeResolved : List Nat
  defResolved : List Nat
  received : List (Msg V)
  loopSt : LoopSt
  pushed : List O
  writingFinished : Bool
  flushSt : FlushSt
  flushAwaitId : Option Nat
deriving DecidableEq, Repr

/-- A freshly constructed `AsyncTransformStream` (all fields at their
initializers in the class bodies). -/
def initAState (V O : Type) : AState V O :=
  { closed := false, backlog := [], nextId := 0, writeResolved := []
  , defResolved := [], received := [], loopSt := LoopSt.notStarted
  , pushed := [], writingFinished := false, flushSt := FlushSt.notCalled
  , flushAwaitId := none }

/-- The consumer loop receives the `done` marker: the inner `for await`
of the transform over `inputs` ends, the transform yields its trailing
outputs `tail` (each forwarded by `this.push`), the transform returns,
and `transformDonePromise.then` resolves `_writingFinished`. -/
def finishLoop (tail : List O) (s : AState V O) : AState V O :=
  { s with received := s.received ++ [Msg.done]
         , pushed := s.pushed ++ tail
         , loopSt := LoopSt.finished
         , writingFinished := true }

/-- The consumer loop pulls repeatedly from the backlog: each iteration
shifts the oldest entry, resolves that entry's `Deferred`, and either
yields the item to the transform (which pushes `f v` downstream) or, on
the `done` marker, finishes.  An empty backlog parks the loop on a fresh
`blockedOn` deferred.  Entries after a `done` marker are never consumed. -/
def drainLoop (f : V → List O) (tail : List O) :
    List (Msg V × Nat) → AState V O → AState V O
  | [], s => { s with backlog := [], loopSt := LoopSt.parked }
  | (m, id) :: rest, s =>
    let s1 := { s with defResolved := s.defResolved ++ [id] }
    match m with
    | Msg.item v =>
        drainLoop f tail rest
          { s1 with received := s1.received ++ [Msg.item v]
                  , pushed := s1.pushed ++ f v }
    | Msg.done => { (finishLoop tail s1) with backlog := rest }

/-- Whether the promise returned by `close()` (awaited first in `_flush`)
has settled: immediately when `_write` took the blocked-consumer branch
(`flushAwaitId = none`), otherwise once the consumer resolved the
backlog `Deferred` carrying that id. -/
def closeSettled (s : AState V O) : Bool :=
  match s.flushAwaitId with
  | none => true
  | some id => s.defResolved.contains id

/-- Run the continuation of `_flush` if it is enabled: after
`await this._inputs.close()` settles and `_writingFinished.promise`
resolves, `_flush` invokes its callback. -/
def maybeCompleteFlush (s : AState V O) : AState V O :=
  if s.flushSt = FlushSt.awaitingClose ∧ closeSettled s = true ∧
      s.writingFinished = true
  then { s with flushSt := FlushSt.completed }
  else s

/-- The public `write(value)` method of `WritableAsyncIterable`, together
with all microtasks it enables.  Faithful to the source: it throws when
`_closed` is set; otherwise it calls `this._write({value, done: false})`
WITHOUT `return` or `await`, so the promise returned by `write` itself
resolves at the end of its synchronous body in both branches — the
backlog entry's `Deferred` only ever gates the discarded inner promise.
In `_write`, a parked consumer receives the value directly
(`blockedOn.resolve`) and then keeps pulling; otherwise the value and a
fresh `Deferred` are appended to the backlog. -/
def rawWrite (f : V → List O) (tail : List O) (s : AState V O) (v : V) :
    Except String (AState V O) :=
  if s.closed then Except.error "Wrote to closed writable iterable"
  else
    let id := s.nextId
    let s1 := { s with nextId := id + 1
                     , writeResolved := s.writeResolved ++ [id] }
    if s1.loopSt = LoopSt.parked then
      Except.ok (maybeCompleteFlush (drainLoop f tail s1.backlog
        { s1 with backlog := []
                , received := s1.received ++ [Msg.item v]
                , pushed := s1.pushed ++ f v }))
    else
      Except.ok { s1 with backlog := s1.backlog ++ [(Msg.item v, id)] }

/-- The `close()` method of `WritableAsyncIterable`, with the microtasks
it enables.  Faithful to the source: it sets `_closed` and returns
`this._write({done: true})` — it performs NO already-closed check, so a
second `close` is accepted like any other `_write`.  The second
component of the result is the identity of the `Deferred` the returned
promise waits on (`none` when it resolved immediately because the
consumer was parked). -/
def rawClose (tail : List O) (s : AState V O) :
    Except String (AState V O × Option Nat) :=
  let id := s.nextId
  let s1 := { s with closed := true, nextId := id + 1 }
  if s1.loopSt = LoopSt.parked then
    Except.ok (maybeCompleteFlush (finishLoop tail s1), none)
  else
    Except.ok ({ s1 with backlog := s1.backlog ++ [(Msg.done, id)] }, some id)

/-- Method `AsyncTransformStream._initializeOnce`: on the first `_transform`
call the transform iteration is started.  Its first action is to pull
from `this._inputs`: it drains whatever is already in the backlog and
then parks (or finishes, if a `done` marker was already queued). -/
def initOnce (f : V → List O) (tail : List O) (s : AState V O) :
    AState V O :=
  if s.loopSt = LoopSt.notStarted then
    maybeCompleteFlush (drainLoop f tail s.backlog { s with backlog := [] })
  else s

/-- Method `AsyncTransformStream._transform(input, _encoding, callback)`
followed by the microtasks it enables: `_initializeOnce()`, then
`this._inputs.write(input)`; the Node callback is chained on the promise
returned by `write` (which, given the dropped inner promise, resolves
immediately), after which the stream machinery may deliver the next
chunk.  An error from `write` is surfaced through `callback(err)`;
modelling the happy paths, a failed write leaves the state unchanged. -/
def deliverItem (f : V → List O) (tail : List O) (s : AState V O)
    (v : V) : AState V O :=
  let s1 := initOnce f tail s
  match rawWrite f tail s1 v with
  | Except.ok s2 => s2
  | Except.error _ => s1

/-- Method `AsyncTransformStream._flush(callback)` followed by the microtasks it
enables: `await this._inputs.close()`, then
`await this._writingFinished.promise`, then `callback()`.  `_flush` does
not call `_initializeOnce`, so on a stream that never received input the
`done` marker is queued into the backlog of a consumer that never
started. -/
def doFlush (tail : List O) (s : AState V O) :
    AState V O :=
  match rawClose tail s with
  | Except.error _ => s
  | Except.ok (s1, pending) =>
      maybeCompleteFlush
        { s1 with flushSt := FlushSt.awaitingClose, flushAwaitId := pending }

/-- One complete run of an `AsyncTransformStream` under the Node stream
protocol: the upstream delivers the chunks `xs` one `_transform` call at
a time (each callback firing before the next chunk), then calls
`_flush`.  The transform function is modelled by the class of async
generators that yield `f v` for each input `v` and the trailing outputs
`tail` after the input sequence ends — the identity transform is
`f := fun v => [v]`, `tail := []`. -/
def runTS (f : V → List O) (tail : List O) (xs : List V) : AState V O :=
  doFlush tail (xs.foldl (deliverItem f tail) (initAState V O))

/-- The state of an `AsyncTransformStream` after the canonical delivery
of the chunks `xs` (each `_transform` call settling before the next, as
the Node stream machinery drives it): the consumer is parked with an
empty backlog, every item was handed to it directly in order, and every
transform output was pushed. -/
def canonState (f : V → List O) (xs : List V) : AState V O :=
  { closed := false, backlog := [], nextId := xs.length
  , writeResolved := List.range xs.length, defResolved := []
  , received := xs.map Msg.item, loopSt := LoopSt.parked
  , pushed := xs.flatMap f, writingFinished := false
  , flushSt := FlushSt.notCalled, flushAwaitId := none }

theorem deliver_canon (f : V → List O) (tail : List O) (xs : List V)
    (v : V) :
    deliverItem f tail (canonState f xs) v = canonState f (xs ++ [v]) := by
  simp [deliverItem, initOnce, canonState, rawWrite, drainLoop,
    maybeCompleteFlush, List.range_succ]

theorem foldl_canon (f : V → List O) (tail : List O) (rest : List V) :
    ∀ xs : List V,
      rest.foldl (deliverItem f tail) (canonState f xs) =
        canonState f (xs ++ rest) := by
  induction rest with
  | nil => intro xs; simp
  | cons r rs ih =>
      intro xs
      simp only [List.foldl_cons, deliver_canon, ih, List.append_assoc,
        List.singleton_append]

theorem deliver_init (V O : Type) (f : V → List O) (tail : List O)
    (v : V) :
    deliverItem f tail (initAState V O) v = canonState f [v] := by
  simp [deliverItem, initOnce, initAState, canonState, rawWrite, drainLoop,
    maybeCompleteFlush]
  decide

/-- The state after `_flush` on a canonically delivered nonempty or empty
`xs` with the consumer parked: `close()` hands the `done` marker straight
to the parked consumer, the transform pushes its trailing outputs and
returns, `_writingFinished` resolves, and `_flush` invokes its
callback. -/
def flushedState (f : V → List O) (tail : List O) (xs : List V) :
    AState V O :=
  { closed := true, backlog := [], nextId := xs.length + 1
  , writeResolved := List.range xs.length, defResolved := []
  , received := xs.map Msg.item ++ [Msg.done], loopSt := LoopSt.finished
  , pushed := xs.flatMap f ++ tail, writingFinished := true
  , flushSt := FlushSt.completed, flushAwaitId := none }

theorem flush_canon (f : V → List O) (tail : List O) (xs : List V) :
    doFlush tail (canonState f xs) = flushedState f tail xs := by
  simp [doFlush, rawClose, canonState, finishLoop, maybeCompleteFlush,
    closeSettled, flushedState]

theorem runTS_cons (f : V → List O) (tail : List O) (v : V)
    (rest : List V) :
    runTS f tail (v :: rest) = flushedState f tail (v :: rest) := by
  show doFlush tail ((v :: rest).foldl (deliverItem f tail)
    (initAState V O)) = _
  rw [List.foldl_cons, deliver_init, foldl_canon, List.singleton_append,
    flush_canon]

theorem runTS_nil (V O : Type) (f : V → List O) (tail : List O) :
    runTS f tail ([] : List V) =
      { closed := true, backlog := [(Msg.done, 0)], nextId := 1
      , writeResolved := [], defResolved := [], received := []
      , loopSt := LoopSt.notStarted, pushed := []
      , writingFinished := false, flushSt := FlushSt.awaitingClose
      , flushAwaitId := some 0 } := by
  simp [runTS, doFlush, rawClose, initAState, maybeCompleteFlush,
    closeSettled]

/-- Claim C1 (code evaluated at the failing input).  The claim states
that a `write` whose item is queued in the backlog remains unresolved
until the consumer pulls exactly that item.  In the source, `write`
calls `this._write({value, done: false})` without `return` or `await`,
discarding the inner promise, so the promise returned by `write`
resolves immediately even when the item is backlogged.  Concretely: two
writes on a fresh `WritableAsyncIterable` with no consumer pull leave
both items unconsumed in the backlog (`received = []`, no `Deferred`
resolved) while both write promises have already resolved
(`writeResolved = [0, 1]`). -/
theorem c1_write_resolves_before_item_consumed :
    (rawWrite (fun v : Nat => [v]) [] (initAState Nat Nat) 10).bind
        (fun t => rawWrite (fun v => [v]) [] t 20) =
      Except.ok
        { closed := false
        , backlog := [(Msg.item 10, 0), (Msg.item 20, 1)]
        , nextId := 2, writeResolved := [0, 1], defResolved := []
        , received := [], loopSt := LoopSt.notStarted, pushed := []
        , writingFinished := false, flushSt := FlushSt.notCalled
        , flushAwaitId := none } := by
  rfl

/-- Claim C2: for every finite input sequence driven through an
`AsyncTransformStream` whose transform is the identity, followed by
`_flush`, the pushed output sequence equals the input sequence in the
same order, and the consumer receives the terminal `done` marker only
after all items, i.e. the received sequence is exactly the items in
order followed by the `done` marker (on empty input the lazily
initialized transform never runs, so it receives nothing). -/
theorem c2_identity_transform_preserves_sequence (V : Type)
    (xs : List V) :
    (runTS (fun v => [v]) ([] : List V) xs).pushed = xs ∧
    (runTS (fun v => [v]) ([] : List V) xs).received =
      xs.map Msg.item ++ (if xs.isEmpty then [] else [Msg.done]) := by
  cases xs with
  | nil => simp [runTS_nil]
  | cons v rest => simp [runTS_cons, flushedState]

/-- Claim C3: whenever `_flush` has signalled completion, the input
sequence has been closed, the transform function has observed the close
and returned (so `_writingFinished` resolved), and every output the
transform yielded — `f v` for each input `v` in order, then the trailing
outputs `tail` produced after it saw the close — has been forwarded
downstream; in particular no trailing output is dropped. -/
theorem c3_flush_completes_only_after_all_output (V O : Type)
    (f : V → List O) (tail : List O) (xs : List V)
    (h : (runTS f tail xs).flushSt = FlushSt.completed) :
    (runTS f tail xs).closed = true ∧
    (runTS f tail xs).writingFinished = true ∧
    (runTS f tail xs).loopSt = LoopSt.finished ∧
    (runTS f tail xs).pushed = xs.flatMap f ++ tail := by
  cases xs with
  | nil => rw [runTS_nil] at h; exact absurd h (by simp)
  | cons v rest => simp [runTS_cons, flushedState]

/-- Witness for C3 at a concrete run: the transform duplicates each of
the two inputs and yields one trailing output after the close. -/
theorem c3_witness :
    (runTS (fun v : Nat => [v, v + 1]) [99] [5, 7]).closed = true ∧
    (runTS (fun v : Nat => [v, v + 1]) [99] [5, 7]).writingFinished =
      true ∧
    (runTS (fun v : Nat => [v, v + 1]) [99] [5, 7]).loopSt =
      LoopSt.finished ∧
    (runTS (fun v : Nat => [v, v + 1]) [99] [5, 7]).pushed =
      [5, 7].flatMap (fun v => [v, v + 1]) ++ [99] :=
  c3_flush_completes_only_after_all_output Nat Nat
    (fun v => [v, v + 1]) [99] [5, 7] (by decide)

/-- Helper: `close()` contains no throw and no already-closed check, so
it returns successfully from every state. -/
theorem rawClose_isOk (tail : List O) (s : AState V O) :
    (rawClose tail s).isOk = true := by
  simp only [rawClose]
  split
  · rfl
  · rfl

/-- The state of a fresh `WritableAsyncIterable`-backed adapter right
after one `close()` call (and no other operation). -/
def onceClosedState : AState Nat Nat :=
  { closed := true, backlog := [(Msg.done, 0)], nextId := 1
  , writeResolved := [], defResolved := [], received := []
  , loopSt := LoopSt.notStarted, pushed := []
  , writingFinished := false, flushSt := FlushSt.notCalled
  , flushAwaitId := none }

/-- Claim C6 counterexample: the claim states that a second `close`
yields a ProtocolError, but `close()` performs no already-closed check —
closing a fresh `WritableAsyncIterable` twice succeeds both times (the
second terminal marker is simply queued behind the first and no error is
raised). -/
theorem c6_counterexample_close_after_close_accepted :
    rawClose ([] : List Nat) (initAState Nat Nat) =
      Except.ok (onceClosedState, some 0) ∧
    rawClose ([] : List Nat) onceClosedState =
      Except.ok
        ({ onceClosedState with
            backlog := [(Msg.done, 0), (Msg.done, 1)], nextId := 2 }
         , some 1) := by
  exact ⟨rfl, rfl⟩

/-- Claim C6 as amended: on a closed `WritableAsyncIterable`, `write`
fails with the "Wrote to closed writable iterable" error, while `close`
is accepted without error (the second `done` marker goes through
`_write` like any other message; it is not a ProtocolError). -/
theorem c6_amended_write_after_close_errors (V O : Type)
    (f : V → List O) (tail : List O) (s : AState V O) (v : V)
    (h : s.closed = true) :
    rawWrite f tail s v =
      Except.error "Wrote to closed writable iterable" ∧
    (rawClose tail s).isOk = true := by
  exact ⟨by simp [rawWrite, h], rawClose_isOk tail s⟩

/-- Witness for the amended C6 at the concrete state reached by closing
a fresh iterable once. -/
theorem c6_witness :
    rawWrite (fun v : Nat => [v]) [] onceClosedState 42 =
      Except.error "Wrote to closed writable iterable" ∧
    (rawClose ([] : List Nat) onceClosedState).isOk = true :=
  c6_amended_write_after_close_errors Nat Nat (fun v => [v]) []
    onceClosedState 42 rfl

/-- Claim C9: if no item was ever written before `_flush`, the flush
never completes.  `_flush` closes the input, which queues the terminal
`done` marker into the backlog awaiting a consumer; but the transform
iteration is initialized lazily by `_transform` only, so it never
started (`loopSt = notStarted`), nothing ever pulls the marker, the
`Deferred` that `close()` returned stays unresolved
(`closeSettled = false`), and the state is quiescent: re-running the
flush continuation changes nothing, so completion is never signalled. -/
theorem c9_flush_on_empty_input_never_completes (V O : Type)
    (f : V → List O) (tail : List O) :
    (runTS f tail ([] : List V)).flushSt = FlushSt.awaitingClose ∧
    (runTS f tail ([] : List V)).loopSt = LoopSt.notStarted ∧
    (runTS f tail ([] : List V)).backlog = [(Msg.done, 0)] ∧
    (runTS f tail ([] : List V)).received = [] ∧
    (runTS f tail ([] : List V)).writingFinished = false ∧
    closeSettled (runTS f tail ([] : List V)) = false ∧
    maybeCompleteFlush (runTS f tail ([] : List V)) =
      runTS f tail ([] : List V) := by
  rw [runTS_nil]
  refine ⟨rfl, rfl, rfl, rfl, rfl, rfl, ?_⟩
  simp [maybeCompleteFlush, closeSettled]

instance (E A : Type) [DecidableEq E] [DecidableEq A] :
    DecidableEq (Except E A) := fun x y =>
  match x, y with
  | Except.ok a, Except.ok b =>
      if h : a = b then isTrue (by rw [h])
      else isFalse (fun hc => h (Except.ok.inj hc))
  | Except.error e, Except.error e' =>
      if h : e = e' then isTrue (by rw [h])
      else isFalse (fun hc => h (Except.error.inj hc))
  | Except.ok _, Except.error _ => isFalse (fun hc => Except.noConfusion hc)
  | Except.error _, Except.ok _ => isFalse (fun hc => Except.noConfusion hc)

/-- A settled promise, modelled as an outcome together with the time at
which it settles (`Promise` values in `build()` all eventually settle in
the scenarios the claims quantify over; a time is a point on Node's
event-loop timeline). -/
structure PromiseO (E A : Type) where
  time : Nat
  out : Except E A
deriving DecidableEq, Repr

/-- Semantics of `Promise.all([p, q])` over two settled promises: fulfils with the
pair once both have fulfilled; rejects as soon as the FIRST rejection
settles, carrying that rejection's error — it does not wait for the
other input to settle.  A tie in time is resolved in index order (the
first promise's rejection callback was registered first). -/
def promiseAll2 (p : PromiseO E A) (q : PromiseO E B) : PromiseO E (A × B) :=
  { time :=
      match p.out, q.out with
      | Except.ok _, Except.ok _ => max p.time q.time
      | Except.error _, Except.ok _ => p.time
      | Except.ok _, Except.error _ => q.time
      | Except.error _, Except.error _ => min p.time q.time
  , out :=
      match p.out, q.out with
      | Except.ok a, Except.ok b => Except.ok (a, b)
      | Except.error e, Except.ok _ => Except.error e
      | Except.ok _, Except.error e => Except.error e
      | Except.error e1, Except.error e2 =>
          if q.time < p.time then Except.error e2 else Except.error e1 }

/-- Sequencing `p.then(f)`: on fulfilment, `f` runs from `p`'s settle time and its
own duration is added; a rejection of `p` passes through unchanged. -/
def pThen (p : PromiseO E A) (f : A → PromiseO E B) : PromiseO E B :=
  match p.out with
  | Except.error e => { time := p.time, out := Except.error e }
  | Except.ok a => { time := p.time + (f a).time, out := (f a).out }

/-- Function `waitFor(stream)` from `src/build/streams.ts`: a promise that
resolves on the stream's 'end' event and rejects on its 'error' event;
the stream's terminal outcome is the given promise. -/
def waitFor (p : PromiseO E A) : PromiseO E A := p

/-- One stream node of the build pipeline, labelled by what the source
pipes at that position.  Optimize stages carry their effective
configuration after the `Object.assign` defaulting in `build()`. -/
inductive Stage where
  | projectSources : Stage
  | projectDependencies : Stage
  | splitHtml : Stage
  | babelTransform : Stage
  | jsOptimize : Bool → Stage
  | cssOptimize : Bool → Stage
  | htmlOptimize : Option Bool → Bool → Stage
  | rejoinHtml : Stage
  | mergeStreams : Stage
  | analyzer : Stage
  | forkStream : Stage
  | prefetchTransform : Stage
  | destUnbundled : Stage
  | bundler : Stage
  | destBundled : Stage
deriving DecidableEq, Repr

/-- The `js` member of the `BuildOptions` interface. -/
structure JsOpts where
  compile : Option Bool := none
  minify : Option Bool := none
deriving DecidableEq, Repr

/-- The `html` member of the `BuildOptions` interface. -/
structure HtmlOpts where
  collapseWhitespace : Option Bool := none
  removeComments : Option Bool := none
deriving DecidableEq, Repr

/-- The `css` member of the `BuildOptions` interface. -/
structure CssOpts where
  stripWhitespace : Option Bool := none
deriving DecidableEq, Repr

/-- The options object passed to `build()`.  The first five fields are
the `BuildOptions` interface of `src/build/build.ts`; the last three are
the extra properties that `BuildCommand.run` in `src/commands/build.ts`
assigns on its `buildOptions` object literal (they are carried on the
object at runtime even though `build()` never reads them).  `none`
models an absent / `undefined` property, which is falsy. -/
structure BuildOptions where
  swPrecacheConfig : Option String := none
  insertDependencyLinks : Option Bool := none
  html : Option HtmlOpts := none
  css : Option CssOpts := none
  js : Option JsOpts := none
  addServiceWorker : Option Bool := none
  insertPrefetchLinks : Option Bool := none
  bundle : Option Bool := none
deriving DecidableEq, Repr

/-- The sources (resp. dependencies) half of the pipeline in `build()`:
`sources()`/`dependencies()`, `splitHtml()`, the Babel transform when
`options.js.compile` is truthy, the three per-type optimize stages with
their `Object.assign`-defaulted configurations, then `rejoinHtml()`.
The `gulpif` regex routing is per-file and does not affect which stages
the pipeline contains. -/
def halfPipeline (head : Stage) (o : BuildOptions) (j : JsOpts) :
    List Stage :=
  [head, Stage.splitHtml]
  ++ (if j.compile.getD false then [Stage.babelTransform] else [])
  ++ [Stage.jsOptimize (j.minify.getD true)
     , Stage.cssOptimize
         ((o.css.map (fun c => c.stripWhitespace.getD true)).getD true)
     , Stage.htmlOptimize (o.html.bind (fun h => h.collapseWhitespace))
         ((o.html.map (fun h => h.removeComments.getD true)).getD true)
     , Stage.rejoinHtml]

/-- The unbundled branch: `forkStream(buildStream)`, then
`gulpif(options.insertDependencyLinks, new PrefetchTransform(...))`, then
`dest('build/unbundled')`.  The prefetch stage is included exactly when
`options.insertDependencyLinks` is truthy, immediately before the
terminal write. -/
def unbundledPhaseStages (o : BuildOptions) : List Stage :=
  [Stage.forkStream]
  ++ (if o.insertDependencyLinks.getD false then [Stage.prefetchTransform]
      else [])
  ++ [Stage.destUnbundled]

/-- The bundled branch: `forkStream(buildStream)`, the bundler, then
`dest('build/bundled')`; it never contains the prefetch stage. -/
def bundledPhaseStages : List Stage :=
  [Stage.forkStream, Stage.bundler, Stage.destBundled]

/-- One branch's post-processing in `build()`:
`Promise.all([loadSWConfig, waitFor(phase)]).then((results) =>
addServiceWorker({... swConfig: results[0] ...}))`. -/
def postProcessing (load : PromiseO E C) (strm : PromiseO E Unit)
    (addSW : C → PromiseO E Unit) : PromiseO E Unit :=
  pThen (promiseAll2 load (waitFor strm)) (fun r => addSW r.1)

/-- The completion aggregation at the end of `build()`:
`await Promise.all([unbundledPostProcessing, bundledPostProcessing])`
followed by the synchronous completion log; `build`'s returned promise
settles with this. -/
def buildAggregate (load : PromiseO E C) (u b : PromiseO E Unit)
    (aU aB : C → PromiseO E Unit) : PromiseO E Unit :=
  let p := promiseAll2 (postProcessing load u aU) (postProcessing load b aB)
  { time := p.time, out := Except.map (fun _ => ()) p.out }

/-- The config value a branch's `addServiceWorker` call actually
receives (`results[0]` of that branch's inner `Promise.all`), when the
branch reaches its post-processing at all. -/
def consumedConfig (load : PromiseO E C) (strm : PromiseO E Unit) :
    Option C :=
  match (promiseAll2 load (waitFor strm)).out with
  | Except.ok r => some r.1
  | Except.error _ => none

/-- The error `build()` raises before constructing anything when
`options.js` is absent: `options.js.compile` throws a TypeError. -/
inductive BuildErr where
  | typeErrorJsUndefined : BuildErr
deriving DecidableEq, Repr

/-- Everything observable about one `build()` invocation: the stage
lists of each pipeline segment, how many times `parsePreCacheConfig` was
invoked, both branch post-processing promises, the completion aggregate,
and the config value each branch's post-processing consumed. -/
structure BuildRun (E C : Type) where
  sourcesStages : List Stage
  depsStages : List Stage
  buildStreamStages : List Stage
  unbundledStages : List Stage
  bundledStages : List Stage
  swConfigCalls : Nat
  unbundledPost : PromiseO E Unit
  bundledPost : PromiseO E Unit
  aggregate : PromiseO E Unit
  cfgUnbundled : Option C
  cfgBundled : Option C
deriving DecidableEq, Repr

/-- The `build(options, config)` function of `src/build/build.ts`.
Leaf asynchrony is passed in: `loadResult` is the settled outcome of the
single `parsePreCacheConfig` call (`calls0` counts invocations of the
loader before this build; the body executes its one call site once);
`unbundledDrain` / `bundledDrain` are the terminal outcomes of
`waitFor(unbundledPhase)` / `waitFor(bundledPhase)`; `addSWUnbundled` /
`addSWBundled` are the outcomes of the two `addServiceWorker` calls as a
function of the config they receive.  Before anything else the body
evaluates `options.js.compile` (line 49), which throws a TypeError when
`options.js` is absent — no pipeline is constructed in that case. -/
def build (options : BuildOptions) (loadResult : PromiseO E C)
    (unbundledDrain bundledDrain : PromiseO E Unit)
    (addSWUnbundled addSWBundled : C → PromiseO E Unit)
    (calls0 : Nat) : Except BuildErr (BuildRun E C) :=
  match options.js with
  | none => Except.error BuildErr.typeErrorJsUndefined
  | some j =>
      Except.ok
        { sourcesStages := halfPipeline Stage.projectSources options j
        , depsStages := halfPipeline Stage.projectDependencies options j
        , buildStreamStages := [Stage.mergeStreams, Stage.analyzer]
        , unbundledStages := unbundledPhaseStages options
        , bundledStages := bundledPhaseStages
        , swConfigCalls := calls0 + 1
        , unbundledPost :=
            postProcessing loadResult unbundledDrain addSWUnbundled
        , bundledPost :=
            postProcessing loadResult bundledDrain addSWBundled
        , aggregate :=
            buildAggregate loadResult unbundledDrain bundledDrain
              addSWUnbundled addSWBundled
        , cfgUnbundled := consumedConfig loadResult unbundledDrain
        , cfgBundled := consumedConfig loadResult bundledDrain }

/-- The command-line options the `build` command receives (each `args`
entry of `BuildCommand`, with its declared `defaultValue` where one is
declared; flags without a default are absent unless passed). -/
structure CommandOptions where
  bundle : Bool := false
  addServiceWorker : Option Bool := none
  swPrecacheConfig : String := "sw-precache-config.js"
  insertPrefetchLinks : Option Bool := none
  htmlCollapseWhitespace : Option Bool := none
deriving DecidableEq, Repr

/-- The `buildOptions` object literal that `BuildCommand.run` constructs
(`src/commands/build.ts`, lines 76-87): it assigns `addServiceWorker`,
`swPrecacheConfig`, `insertPrefetchLinks`, `bundle`, and empty
`html`/`css`/`js` objects, then sets `html.collapseWhitespace` when that
flag was passed.  It never assigns `insertDependencyLinks` — the field
`build()` actually reads to decide on the prefetch stage. -/
def commandBuildOptions (o : CommandOptions) : BuildOptions :=
  let base : BuildOptions :=
    { swPrecacheConfig := some o.swPrecacheConfig
    , insertDependencyLinks := none
    , html := some {}
    , css := some {}
    , js := some {}
    , addServiceWorker := o.addServiceWorker
    , insertPrefetchLinks := o.insertPrefetchLinks
    , bundle := some o.bundle }
  if o.htmlCollapseWhitespace.getD false then
    { base with html := some { collapseWhitespace := some true } }
  else base

/-- Helper: an `Except` over `Unit` is a success exactly when it is
`ok ()`. -/
theorem unitOk_iff (x : Except E Unit) :
    x.isOk = true ↔ x = Except.ok () := by
  cases x with
  | error e => simp [Except.isOk, Except.toBool]
  | ok u => cases u; simp [Except.isOk, Except.toBool]

/-- Helper: `Promise.all([p, q])` fulfils with a pair exactly when both
inputs fulfil with the components. -/
theorem promiseAll2_out_ok (p : PromiseO E A) (q : PromiseO E B)
    (a : A) (b : B) :
    (promiseAll2 p q).out = Except.ok (a, b) ↔
      p.out = Except.ok a ∧ q.out = Except.ok b := by
  unfold promiseAll2
  cases hp : p.out with
  | error e =>
      cases hq : q.out with
      | error e' =>
          by_cases ht : q.time < p.time <;> simp [ht]
      | ok bb => simp
  | ok aa =>
      cases hq : q.out with
      | error e' => simp
      | ok bb => simp [and_comm]

/-- Helper: a branch's post-processing promise fulfils exactly when the
config load fulfilled, that branch's stream drained without error, and
the branch's `addServiceWorker` call (fed the loaded config) fulfilled. -/
theorem postProcessing_isOk (load : PromiseO E C) (strm : PromiseO E Unit)
    (addSW : C → PromiseO E Unit) :
    (postProcessing load strm addSW).out.isOk = true ↔
      ∃ c, load.out = Except.ok c ∧ strm.out.isOk = true ∧
        (addSW c).out.isOk = true := by
  unfold postProcessing pThen waitFor
  cases hpq : (promiseAll2 load strm).out with
  | error e =>
      simp only [hpq]
      constructor
      · intro h; simp [Except.isOk, Except.toBool] at h
      · rintro ⟨c, hc, hs, ha⟩
        rw [unitOk_iff] at hs
        have hok : (promiseAll2 load strm).out = Except.ok (c, ()) :=
          (promiseAll2_out_ok load strm c ()).mpr ⟨hc, hs⟩
        rw [hpq] at hok
        exact Except.noConfusion hok
  | ok r =>
      obtain ⟨c, u⟩ := r
      cases u
      have hok := (promiseAll2_out_ok load strm c ()).mp hpq
      simp only [hpq]
      constructor
      · intro h
        exact ⟨c, hok.1, (unitOk_iff strm.out).mpr hok.2, h⟩
      · rintro ⟨c', hc', hs', ha'⟩
        obtain rfl : c' = c := Except.ok.inj (hc'.symm.trans hok.1)
        exact ha'

/-- Helper: the completion aggregate fulfils exactly when both branch
post-processing promises fulfil. -/
theorem buildAggregate_isOk (load : PromiseO E C) (u b : PromiseO E Unit)
    (aU aB : C → PromiseO E Unit) :
    (buildAggregate load u b aU aB).out.isOk = true ↔
      (postProcessing load u aU).out.isOk = true ∧
        (postProcessing load b aB).out.isOk = true := by
  unfold buildAggregate promiseAll2
  cases hU : (postProcessing load u aU).out with
  | error e =>
      cases hB : (postProcessing load b aB).out with
      | error e' =>
          by_cases ht : (postProcessing load b aB).time <
              (postProcessing load u aU).time <;>
            simp [ht, Except.map, Except.isOk, Except.toBool]
      | ok v =>
          simp [Except.map, Except.isOk, Except.toBool]
  | ok v =>
      cases hB : (postProcessing load b aB).out with
      | error e' => simp [Except.map, Except.isOk, Except.toBool]
      | ok v' => simp [Except.map, Except.isOk, Except.toBool]

/-- Claim C5: the build's overall result is success if and only if the
config load, the unbundled branch's stream, the bundled branch's stream,
and both `addServiceWorker` post-processing steps all succeed; any
single failure among them makes the completion aggregate reject. -/
theorem c5_build_success_iff_all_parts_succeed (E C : Type)
    (load : PromiseO E C) (u b : PromiseO E Unit)
    (aU aB : C → PromiseO E Unit) :
    (buildAggregate load u b aU aB).out.isOk = true ↔
      ∃ c, load.out = Except.ok c ∧ u.out.isOk = true ∧
        b.out.isOk = true ∧ (aU c).out.isOk = true ∧
        (aB c).out.isOk = true := by
  rw [buildAggregate_isOk, postProcessing_isOk, postProcessing_isOk]
  constructor
  · rintro ⟨⟨c, hc, hu, hau⟩, ⟨c', hc', hb, hab⟩⟩
    obtain rfl : c = c' := Except.ok.inj (hc.symm.trans hc')
    exact ⟨c, hc, hu, hb, hau, hab⟩
  · rintro ⟨c, hc, hu, hb, hau, hab⟩
    exact ⟨⟨c, hc, hu, hau⟩, ⟨c, hc, hb, hab⟩⟩

/-- Concrete leaves for the aggregation claims: the config load fulfils
at time 0; the unbundled branch fails at time 5 with error 100; the
bundled branch fails at time 1 with error 200; `addServiceWorker` would
succeed instantly on either branch. -/
def cxLoad : PromiseO Nat Nat := { time := 0, out := Except.ok 0 }

def cxUnbundled : PromiseO Nat Unit :=
  { time := 5, out := Except.error 100 }

def cxBundled : PromiseO Nat Unit :=
  { time := 1, out := Except.error 200 }

def cxAddSW : Nat → PromiseO Nat Unit :=
  fun _ => { time := 0, out := Except.ok () }

/-- Claim C4 counterexample.  The claim states that the completion
aggregation waits for all inputs to settle and reports the lowest-index
failure as the primary error.  At these concrete leaves the unbundled
post-processing (index 0) rejects at time 5 with error 100 and the
bundled one (index 1) rejects at time 1 with error 200; the code's
`Promise.all` settles at time 1 — before the index-0 input has settled —
and reports error 200, the temporally-first failure, not the
lowest-index one. -/
theorem c4_counterexample_all_short_circuits :
    (buildAggregate cxLoad cxUnbundled cxBundled cxAddSW cxAddSW).time = 1 ∧
    (buildAggregate cxLoad cxUnbundled cxBundled cxAddSW cxAddSW).out =
      Except.error 200 ∧
    (postProcessing cxLoad cxUnbundled cxAddSW).time = 5 ∧
    ¬(5 ≤ (buildAggregate cxLoad cxUnbundled cxBundled cxAddSW cxAddSW).time ∧
      (buildAggregate cxLoad cxUnbundled cxBundled cxAddSW cxAddSW).out =
        Except.error 100) := by
  decide

/-- Claim C4 as amended: the completion aggregation is
`Promise.all([unbundledPostProcessing, bundledPostProcessing])` (the
config promise participates only through each branch's inner
`Promise.all`), and it short-circuit-rejects: when both post-processing
promises reject and the bundled one settles first, the aggregate settles
at the bundled rejection's time with the bundled rejection's error —
strictly before the unbundled input settles, so remaining inputs are not
awaited and the reported primary error is the temporally-first failure,
not the lowest-index one. -/
theorem c4_amended_aggregate_short_circuits (E C : Type)
    (load : PromiseO E C) (u b : PromiseO E Unit)
    (aU aB : C → PromiseO E Unit) (e e' : E)
    (hu : (postProcessing load u aU).out = Except.error e)
    (hb : (postProcessing load b aB).out = Except.error e')
    (ht : (postProcessing load b aB).time <
      (postProcessing load u aU).time) :
    (buildAggregate load u b aU aB).time =
      (postProcessing load b aB).time ∧
    (buildAggregate load u b aU aB).out = Except.error e' ∧
    (buildAggregate load u b aU aB).time <
      (postProcessing load u aU).time := by
  unfold buildAggregate promiseAll2
  simp [hu, hb, ht, Except.map, Nat.min_eq_right (Nat.le_of_lt ht)]

/-- Witness for the amended C4 at the concrete leaves above. -/
theorem c4_witness :
    (buildAggregate cxLoad cxUnbundled cxBundled cxAddSW cxAddSW).time =
      (postProcessing cxLoad cxBundled cxAddSW).time ∧
    (buildAggregate cxLoad cxUnbundled cxBundled cxAddSW cxAddSW).out =
      Except.error 200 ∧
    (buildAggregate cxLoad cxUnbundled cxBundled cxAddSW cxAddSW).time <
      (postProcessing cxLoad cxUnbundled cxAddSW).time :=
  c4_amended_aggregate_short_circuits Nat Nat cxLoad cxUnbundled cxBundled
    cxAddSW cxAddSW 100 200 (by decide) (by decide) (by decide)

/-- Helper: when a branch's post-processing consumed a config value at
all, that value is exactly the one the single load fulfilled with. -/
theorem consumedConfig_some (load : PromiseO E C) (strm : PromiseO E Unit)
    (c : C) (h : consumedConfig load strm = some c) :
    load.out = Except.ok c := by
  unfold consumedConfig waitFor at h
  cases hpq : (promiseAll2 load strm).out with
  | error e => rw [hpq] at h; exact Option.noConfusion h
  | ok r =>
      obtain ⟨c', u⟩ := r
      cases u
      rw [hpq] at h
      simp only [Option.some.injEq] at h
      have hok := (promiseAll2_out_ok load strm c' ()).mp hpq
      rw [← h]
      exact hok.1

/-- Claim C7: one `build()` invocation executes the single
`parsePreCacheConfig` call site exactly once (the loader invocation
count rises by one), and whenever both branches' post-processing steps
consumed a config value, each consumed exactly the value that single
load fulfilled with — the same value for both branches; neither branch
triggers a second load. -/
theorem c7_sw_config_loaded_once_and_shared (E C : Type)
    (options : BuildOptions) (load : PromiseO E C)
    (u b : PromiseO E Unit) (aU aB : C → PromiseO E Unit) (n : Nat)
    (br : BuildRun E C) (cu cb : C)
    (hbr : build options load u b aU aB n = Except.ok br)
    (hcu : br.cfgUnbundled = some cu)
    (hcb : br.cfgBundled = some cb) :
    br.swConfigCalls = n + 1 ∧ load.out = Except.ok cu ∧
      load.out = Except.ok cb ∧ cu = cb := by
  cases hjs : options.js with
  | none =>
      unfold build at hbr
      rw [hjs] at hbr
      exact Except.noConfusion hbr
  | some j =>
      unfold build at hbr
      rw [hjs] at hbr
      obtain rfl : br = _ := (Except.ok.inj hbr).symm
      have h1 := consumedConfig_some load u cu hcu
      have h2 := consumedConfig_some load b cb hcb
      exact ⟨rfl, h1, h2, Except.ok.inj (h1.symm.trans h2)⟩

/-- The `BuildRun` produced by `build` on the command's default options
with a config load that fulfils with the value 7 and both branches
succeeding instantly. -/
def c7Br : BuildRun Nat Nat :=
  { sourcesStages :=
      [Stage.projectSources, Stage.splitHtml, Stage.jsOptimize true
      , Stage.cssOptimize true, Stage.htmlOptimize none true
      , Stage.rejoinHtml]
  , depsStages :=
      [Stage.projectDependencies, Stage.splitHtml, Stage.jsOptimize true
      , Stage.cssOptimize true, Stage.htmlOptimize none true
      , Stage.rejoinHtml]
  , buildStreamStages := [Stage.mergeStreams, Stage.analyzer]
  , unbundledStages := [Stage.forkStream, Stage.destUnbundled]
  , bundledStages := [Stage.forkStream, Stage.bundler, Stage.destBundled]
  , swConfigCalls := 1
  , unbundledPost := { time := 0, out := Except.ok () }
  , bundledPost := { time := 0, out := Except.ok () }
  , aggregate := { time := 0, out := Except.ok () }
  , cfgUnbundled := some 7
  , cfgBundled := some 7 }

/-- Witness for C7 at a concrete all-success build. -/
theorem c7_witness :
    c7Br.swConfigCalls = 0 + 1 ∧
    ({ time := 0, out := Except.ok 7 } : PromiseO Nat Nat).out =
      Except.ok 7 ∧
    ({ time := 0, out := Except.ok 7 } : PromiseO Nat Nat).out =
      Except.ok 7 ∧ (7 : Nat) = 7 :=
  c7_sw_config_loaded_once_and_shared Nat Nat (commandBuildOptions {})
    { time := 0, out := Except.ok 7 } { time := 0, out := Except.ok () }
    { time := 0, out := Except.ok () } (fun _ => { time := 0, out := Except.ok () })
    (fun _ => { time := 0, out := Except.ok () }) 0 c7Br 7 7 rfl rfl rfl

/-- Claim C8 (code evaluated at the failing input).  The claim states
that enabling the build command's prefetch-link-insertion flag includes
the prefetch stage immediately before the unbundled branch's terminal
write.  `BuildCommand.run` stores that flag as `insertPrefetchLinks` on
its options literal, but `build()` decides the stage with
`gulpif(options.insertDependencyLinks, ...)`, a field the command never
assigns — so with the flag enabled neither branch contains the stage
(first conjunct).  The second conjunct shows the switch `build()` does
read: setting `insertDependencyLinks` directly yields the stage exactly
between `forkStream` and the terminal unbundled write, and never in the
bundled branch. -/
theorem c8_prefetch_flag_not_wired_to_build :
    Except.map (fun br => (br.unbundledStages, br.bundledStages))
        (build (commandBuildOptions { insertPrefetchLinks := some true })
          ({ time := 0, out := Except.ok 0 } : PromiseO Nat Nat)
          { time := 0, out := Except.ok () } { time := 0, out := Except.ok () }
          (fun _ => { time := 0, out := Except.ok () })
          (fun _ => { time := 0, out := Except.ok () }) 0) =
      Except.ok
        ([Stage.forkStream, Stage.destUnbundled]
        , [Stage.forkStream, Stage.bundler, Stage.destBundled]) ∧
    Except.map (fun br => (br.unbundledStages, br.bundledStages))
        (build
          { commandBuildOptions { insertPrefetchLinks := some true } with
              insertDependencyLinks := some true }
          ({ time := 0, out := Except.ok 0 } : PromiseO Nat Nat)
          { time := 0, out := Except.ok () } { time := 0, out := Except.ok () }
          (fun _ => { time := 0, out := Except.ok () })
          (fun _ => { time := 0, out := Except.ok () }) 0) =
      Except.ok
        ([Stage.forkStream, Stage.prefetchTransform, Stage.destUnbundled]
        , [Stage.forkStream, Stage.bundler, Stage.destBundled]) := by
  exact ⟨rfl, rfl⟩

/-- Claim C10: `build()` evaluates `options.js.compile` (line 49) before
constructing any pipeline, so whenever the optional `js` field of
`BuildOptions` is absent, the call fails with a TypeError and no
`BuildRun` is produced. -/
theorem c10_build_requires_js_options (E C : Type)
    (options : BuildOptions) (load : PromiseO E C)
    (u b : PromiseO E Unit) (aU aB : C → PromiseO E Unit) (n : Nat)
    (h : options.js = none) :
    build options load u b aU aB n =
      Except.error BuildErr.typeErrorJsUndefined := by
  unfold build
  rw [h]

/-- Witness for C10: calling `build` with every option absent (`js` in
particular) fails with the TypeError. -/
theorem c10_witness :
    build ({} : BuildOptions)
        ({ time := 0, out := Except.ok 0 } : PromiseO Nat Nat)
        { time := 0, out := Except.ok () } { time := 0, out := Except.ok () }
        (fun _ => { time := 0, out := Except.ok () })
        (fun _ => { time := 0, out := Except.ok () }) 0 =
      Except.error BuildErr.typeErrorJsUndefined :=
  c10_build_requires_js_options Nat Nat {}
    { time := 0, out := Except.ok 0 } { time := 0, out := Except.ok () }
    { time := 0, out := Except.ok () } (fun _ => { time := 0, out := Except.ok () })
    (fun _ => { time := 0, out := Except.ok () }) 0 rfl
